import Mathlib

/-!
Verification development for the command execution and sequencing engine of
PortageGUI (src/PortageGUI.py): the worker classes `CommandWorker` and
`GenericWorker`, the single-flight submission functions `run_generic_task` and
`run_emerge_command`, the sequential load state machine
(`_start_next_load_step`, `_generic_finished`, `_generic_error`), the
updates-step failure classifier (`on_updates_error`), and the eix output
parser (`parse_eix_output`).

The embedding is shallow: Python strings become `String`, Python's substring
test `sub in s` becomes `pyIn`, `str.strip` becomes `pyStrip`,
`str.splitlines()[0]` becomes `headLine`, `' '.join` becomes `pyJoin " "`, and
`sorted` on strings becomes `List.insertionSort` over the code-point
lexicographic order `PyLe` (Python compares strings lexicographically by code
point).  The GUI widget contents (list items of the Browse/Installed tabs, tab
captions, colors) are presentation-layer state that the spec explicitly
excludes; the engine-visible state that the claims mention (active worker
slot, alive worker threads, spawned commands, console log, status messages,
error dialogs, progress/cancel indicators, the updates tab payload) is
modelled explicitly in `EngState`.
-/

namespace PortageGUI

/-- Bool test that the first character list is a prefix of the second. -/
def listIsPrefixOf : List Char → List Char → Bool
  | [], _ => true
  | _ :: _, [] => false
  | a :: as, b :: bs => a == b && listIsPrefixOf as bs

/-- Bool test that the first character list occurs contiguously in the second. -/
def listContainsSub : List Char → List Char → Bool
  | sub, [] => listIsPrefixOf sub []
  | sub, b :: bs => listIsPrefixOf sub (b :: bs) || listContainsSub sub bs

/-- Python's substring containment `sub in s`. -/
def pyIn (sub s : String) : Bool := listContainsSub sub.data s.data

/-- Lexicographic (code point) comparison of character lists, as Python
compares strings. -/
def charListLe : List Char → List Char → Bool
  | [], _ => true
  | _ :: _, [] => false
  | a :: as, b :: bs => if a = b then charListLe as bs else decide (a < b)

/-- Python's `<=` on strings: lexicographic by code point. -/
def PyLe (a b : String) : Prop := charListLe a.data b.data = true

instance : DecidableRel PyLe := fun a b => by unfold PyLe; infer_instance

/-- Python's `str.strip()`: drop whitespace from both ends. -/
def pyStrip (s : String) : String :=
  String.mk (((s.data.dropWhile Char.isWhitespace).reverse.dropWhile
    Char.isWhitespace).reverse)

/-- Python's `error_msg.splitlines()[0]`: the text before the first newline. -/
def headLine (s : String) : String :=
  String.mk (s.data.takeWhile (fun c => !(c == Char.ofNat 10)))

/-- Python's `sep.join(parts)`. -/
def pyJoin (sep : String) : List String → String
  | [] => ""
  | [x] => x
  | x :: y :: xs => x ++ sep ++ pyJoin sep (y :: xs)

/-- `COMMAND_TIMEOUT = 300` (seconds), the fixed per-invocation timeout. -/
def COMMAND_TIMEOUT : Nat := 300

/-- A single-quote character, used inside diagnostic messages. -/
def sq : String := String.singleton (Char.ofNat 39)

/-- The cancellation diagnostic both workers emit: `"Operation Cancelled"`. -/
def cancelledMsg : String := "Operation Cancelled"

/-- The timeout diagnostic
`f"Command timed out after {COMMAND_TIMEOUT} seconds."`. -/
def timeoutMsg : String :=
  "Command timed out after " ++ toString COMMAND_TIMEOUT ++ " seconds."

/-- `CommandWorker`'s diagnostic when the pkexec helper is missing. -/
def pkexecMissingMsg : String :=
  "Error: " ++ sq ++ "pkexec" ++ sq ++
    " command not found. Is PolicyKit installed?"

/-- `CommandWorker`'s `FileNotFoundError` diagnostic
`f"Error: Command '{self.command_list[0]}' not found."`. -/
def notFoundMsgCommand (cmd : List String) : String :=
  "Error: Command " ++ sq ++ cmd.headD "" ++ sq ++ " not found."

/-- `GenericWorker`'s `FileNotFoundError` diagnostic
`f"Error: Command '{self.command_list[0]}' not found. Is it installed and in PATH?"`. -/
def notFoundMsgGeneric (cmd : List String) : String :=
  "Error: Command " ++ sq ++ cmd.headD "" ++ sq ++
    " not found. Is it installed and in PATH?"

/-- The non-zero-exit diagnostic built by both workers:
exit code, command line, and captured stderr (or an explicit marker). -/
def failureMsg (cmd : List String) (code : Int) (stderr : String) : String :=
  "Command failed with exit code " ++ toString code ++ ".\n" ++
    "Command: " ++ pyJoin " " cmd ++ "\n" ++
    (if stderr != "" then "Stderr:\n" ++ pyStrip stderr
     else "No stderr output captured.")

/-- `GenericWorker`'s diagnostic when the parser raises. -/
def parseErrorMsg (e : String) (lines : List String) : String :=
  "Error parsing command output: " ++ e ++ "\nOutput:\n" ++
    pyJoin " " (lines.take 10) ++ "..."

/-- A signal emitted by `CommandWorker` through `WorkerSignals`. -/
inductive Emission where
  | progressSig (line : String)
  | resultSig (payload : String)
  | errorSig (msg : String)
  | finishedSig
deriving DecidableEq

/-- Terminal signals are `error` and `finished`; `progress` and `result` are
auxiliary (the success path emits `result` then `finished`). -/
def isTerminal : Emission → Bool
  | .errorSig _ => true
  | .finishedSig => true
  | _ => false

/-- The terminal signals among a worker run's emissions. -/
def terminalEmissions (es : List Emission) : List Emission := es.filter isTerminal

/-- Whether `subprocess.Popen` raised `FileNotFoundError`. -/
inductive LaunchResult where
  | ok
  | notFound
deriving DecidableEq

/-- Outcome of `process.wait(timeout=COMMAND_TIMEOUT)`: either
`TimeoutExpired` was raised or the process exited with a code. -/
inductive WaitResult where
  | timeout
  | exited (code : Int) (stderr : String)
deriving DecidableEq

/-- One concrete execution of a worker's `run` method: how the launch went,
the stdout lines the read loop consumed, whether `self._running` had been
cleared by `stop()` when the post-read check ran, and how the wait ended. -/
structure RunTrace where
  launch : LaunchResult
  stdoutLines : List String
  cancelObserved : Bool
  wait : WaitResult
deriving DecidableEq

/-- Result of one `run`: the emitted signals in order, and whether the
process was force-killed by the timeout handler. -/
structure WorkerRunResult where
  emissions : List Emission
  killed : Bool
deriving DecidableEq

/-- `CommandWorker.run` (src/PortageGUI.py lines 54-111): pkexec presence
check, launch, streamed stdout with the `_running` cancellation check,
stderr capture, bounded wait, and exit-code inspection.  Exactly one
terminal signal is emitted on every path. -/
def commandWorkerRun (commandList : List String) (usePkexec pkexecPresent : Bool)
    (t : RunTrace) : WorkerRunResult :=
  if usePkexec && !pkexecPresent then
    ⟨[.errorSig pkexecMissingMsg], false⟩
  else
    let fullCommand := if usePkexec then
      ["pkexec", "--disable-internal-agent"] ++ commandList else commandList
    match t.launch with
    | .notFound => ⟨[.errorSig (notFoundMsgCommand commandList)], false⟩
    | .ok =>
      let progress := t.stdoutLines.map (fun l => Emission.progressSig (pyStrip l))
      if t.cancelObserved then ⟨progress ++ [.errorSig cancelledMsg], false⟩
      else
        match t.wait with
        | .timeout => ⟨progress ++ [.errorSig timeoutMsg], true⟩
        | .exited code stderr =>
          if code != 0 then
            ⟨progress ++ [.errorSig (failureMsg fullCommand code stderr)], false⟩
          else
            ⟨progress ++ [.resultSig "Command finished successfully.",
              .finishedSig], false⟩

/-- `CommandWorker.stop` (lines 113-127): clears `_running` and terminates
the process, emitting only `progress` notices — never a terminal signal. -/
def commandWorkerStop (processAlive terminateWorks : Bool) : List Emission :=
  if processAlive then
    [.progressSig "Attempting to terminate process..."] ++
      (if terminateWorks then [] else [.progressSig "Forcing process kill..."]) ++
      [.progressSig "Termination signal sent."]
  else []

/-- A signal emitted by `GenericWorker`, whose `result` payload is the
parser's structured output. -/
inductive GEmission (α : Type) where
  | resultSig (payload : α)
  | errorSig (msg : String)
  | finishedSig
deriving DecidableEq

/-- Terminal signals of a `GenericWorker` run. -/
def gIsTerminal {α : Type} : GEmission α → Bool
  | .errorSig _ => true
  | .finishedSig => true
  | _ => false

/-- `GenericWorker.run` (lines 141-198): launch, line collection (each line
stripped), cancellation check, stderr capture, bounded wait, exit-code
inspection, then the optional parsing step whose failure is reported as a
distinct parse-error diagnostic. -/
def genericWorkerRun {α : Type} (commandList : List String)
    (parser : List String → Except String α) (t : RunTrace) :
    List (GEmission α) × Bool :=
  match t.launch with
  | .notFound => ([.errorSig (notFoundMsgGeneric commandList)], false)
  | .ok =>
    let stdoutLines := t.stdoutLines.map pyStrip
    if t.cancelObserved then ([.errorSig cancelledMsg], false)
    else
      match t.wait with
      | .timeout => ([.errorSig timeoutMsg], true)
      | .exited code stderr =>
        if code != 0 then ([.errorSig (failureMsg commandList code stderr)], false)
        else
          match parser stdoutLines with
          | .error e => ([.errorSig (parseErrorMsg e stdoutLines)], false)
          | .ok data => ([.resultSig data, .finishedSig], false)

/-- `parse_eix_output` (lines 829-836): keep the nonempty lines containing
a slash, strip them, collect them into a set, and return the sorted list. -/
def parse_eix_output (lines : List String) : List String :=
  (((lines.filter (fun l => (l != "") && pyIn "/" l)).map pyStrip).dedup).insertionSort PyLe

/-- `no_updates_phrases` (lines 1001-1006): the benign "no updates"
patterns recognised by the updates-step failure classifier. -/
def no_updates_phrases : List String :=
  ["There are no packages to update",
   "Nothing to merge",
   "emerge: there are no ebuilds to satisfy",
   "Exiting."]

/-- `is_no_updates` (line 1007): whether any benign phrase occurs in the
failure diagnostic. -/
def is_no_updates (msg : String) : Bool :=
  no_updates_phrases.any (fun p => pyIn p msg)

/-- The three-way classification made by `on_updates_error`
(lines 997-1027): benign phrases rewrite the failure into success with an
empty payload; otherwise permission-denied patterns keep it a failure;
otherwise it stays an ordinary failure.  The checks are applied in this
order and the first match wins. -/
inductive UpdatesClassification where
  | successEmpty
  | failurePerm
  | failureOther
deriving DecidableEq

/-- The branch `on_updates_error` takes for a given failure diagnostic. -/
def classifyUpdatesError (msg : String) : UpdatesClassification :=
  if is_no_updates msg then .successEmpty
  else if pyIn "Permission denied" msg || pyIn "are you root?" msg then .failurePerm
  else .failureOther

/-- An identified worker thread: its id and the command it runs. -/
structure Worker where
  wid : Nat
  command : List String
deriving DecidableEq

/-- Abstract position of the load sequence, per the spec's Sequencer states:
idle, loading (some step running), complete, aborted by cancellation,
aborted by a fatal missing-tool error. -/
inductive Phase where
  | idle
  | loading
  | complete
  | abortedCancel
  | abortedFatal
deriving DecidableEq

/-- The engine-visible GUI state: the `self.current_worker` slot, the worker
threads still alive, the commands spawned so far (in order), the output
console log, status-bar messages, blocking error dialogs, the busy
indicators, the updates tab payload, and a fresh-id counter. -/
structure EngState where
  slot : Option Worker
  alive : List Worker
  spawned : List (List String)
  console : List String
  statusMessages : List String
  dialogs : List String
  progressVisible : Bool
  cancelEnabled : Bool
  updateListAtoms : List String
  updateListDisplay : List String
  updatesListItems : List String
  phase : Phase
  nextId : Nat
deriving DecidableEq

/-- The state of a freshly constructed window, before any load step. -/
def initState : EngState :=
  { slot := none, alive := [], spawned := [], console := [],
    statusMessages := [], dialogs := [], progressVisible := false,
    cancelEnabled := false, updateListAtoms := [], updateListDisplay := [],
    updatesListItems := [], phase := .idle, nextId := 0 }

/-- Append an entry to the output console (`output_console.append`). -/
def logConsole (entry : String) (s : EngState) : EngState :=
  { s with console := s.console ++ [entry] }

/-- Show a status-bar message (`status_bar.showMessage`). -/
def showStatus (m : String) (s : EngState) : EngState :=
  { s with statusMessages := s.statusMessages ++ [m] }

/-- Show a blocking error dialog (`show_error` / `QMessageBox.critical`). -/
def showErrorDialog (m : String) (s : EngState) : EngState :=
  { s with dialogs := s.dialogs ++ [m] }

/-- `self.current_worker = None`. -/
def clearSlot (s : EngState) : EngState := { s with slot := none }

/-- The worker thread referenced by the slot has ended (its terminal signal
was delivered), so it is no longer alive. -/
def threadDone (s : EngState) : EngState :=
  match s.slot with
  | some w => { s with alive := s.alive.filter (fun w2 => !(w2.wid == w.wid)) }
  | none => s

/-- `self.current_worker and self.current_worker.isRunning()`. -/
def isBusy (s : EngState) : Bool :=
  match s.slot with
  | some w => s.alive.any (fun w2 => w2.wid == w.wid)
  | none => false

/-- The non-busy tail of `run_generic_task` (lines 571-585): status message,
busy indicators on, then a new `GenericWorker` stored in the slot and
started. -/
def spawnGeneric (cmd : List String) (statusMsg : String) (s : EngState) :
    EngState :=
  let w : Worker := ⟨s.nextId, cmd⟩
  { s with
    statusMessages := s.statusMessages ++ [statusMsg]
    progressVisible := true
    cancelEnabled := true
    slot := some w
    alive := w :: s.alive
    spawned := s.spawned ++ [cmd]
    phase := .loading
    nextId := s.nextId + 1 }

/-- `_generic_finished` (lines 587-595): clear the slot, then start the next
load step (passed in as the continuation). -/
def genericFinished (next : EngState → EngState) (s : EngState) : EngState :=
  next (clearSlot s)

/-- `_generic_error` (lines 597-637): a cancellation stops the sequence with
a status notice and no dialog; otherwise the error is logged and summarised;
a diagnostic containing `"Command not found"` stops the sequence with a
blocking dialog; any other failure clears the slot and continues with the
next load step. -/
def genericError (msg : String) (next : EngState → EngState) (s : EngState) :
    EngState :=
  if pyIn "Operation Cancelled" msg then
    let s := showStatus "Load operation Cancelled." s
    let s := logConsole "\n--------------------\nLoad Operation Cancelled by User." s
    { s with
      progressVisible := false
      cancelEnabled := false
      slot := none
      phase := .abortedCancel }
  else
    let s := logConsole ("\n--------------------\nERROR during data load:\n" ++ msg) s
    let s := showStatus ("Load failed: " ++ headLine msg ++ "...") s
    if pyIn "Command not found" msg then
      let s := showErrorDialog ("Data Loading Failed:\n" ++ msg ++
        "\n\nPlease ensure the necessary tools (like eix, equery) are installed and in your PATH.") s
      { s with
        progressVisible := false
        cancelEnabled := false
        slot := none
        phase := .abortedFatal }
    else
      next (clearSlot s)

/-- `on_updates_result` (lines 982-994): store the atoms and display lists,
repopulate the updates tab, and show the resulting count. -/
def onUpdatesResult (atoms display : List String) (s : EngState) : EngState :=
  let items := if atoms.length == 0 then ["No updates available."] else display
  let status := if atoms.length == 0 then "System is up to date."
    else toString atoms.length ++ " updates available."
  { s with
    updateListAtoms := atoms
    updateListDisplay := display
    updatesListItems := items
    statusMessages := s.statusMessages ++ [status] }

/-- `on_updates_error` (lines 997-1027): a diagnostic containing a benign
phrase is rewritten into success with an empty payload and the sequence is
advanced through `_generic_finished`; otherwise a permission-denied
diagnostic, and any other diagnostic, go to `_generic_error`. -/
def onUpdatesError (msg : String) (next : EngState → EngState) (s : EngState) :
    EngState :=
  if is_no_updates msg then
    genericFinished next (onUpdatesResult [] [] s)
  else if pyIn "Permission denied" msg || pyIn "are you root?" msg then
    genericError msg next
      { s with updatesListItems := ["Permission error checking updates."] }
  else
    genericError msg next
      { s with updatesListItems := ["Error checking for updates."] }

/-- `_command_action_error` (lines 686-712): hide the busy indicators; a
cancellation produces only a status notice and a console entry; any other
failure is logged, shown in a blocking dialog and summarised in the status
bar; the slot is cleared. -/
def commandActionError (msg : String) (s : EngState) : EngState :=
  let s := { s with progressVisible := false, cancelEnabled := false }
  if pyIn "Operation Cancelled" msg then
    clearSlot (logConsole "\n--------------------\nOperation Cancelled by User."
      (showStatus "Operation Cancelled." s))
  else
    let s := logConsole ("\n--------------------\nERROR:\n" ++ msg) s
    let s := showErrorDialog ("Operation Failed:\n" ++ headLine msg ++
      "...\n\nSee Output Console for details.") s
    let s := showStatus ("Operation failed: " ++ headLine msg) s
    clearSlot s

/-- The command run by each load step: installed (equery), available (eix),
updates (emerge pretend). -/
def stepCommand : Nat → List String
  | 0 => ["equery", "list", "--installed", "*/*"]
  | 1 => ["eix", "-c", "--only-names", "*/*"]
  | _ => ["emerge", "-upvND", "@world"]

/-- The status message shown when each load step starts. -/
def stepStatusMsg : Nat → String
  | 0 => "Loading installed packages..."
  | 1 => "Loading available packages (eix)..."
  | _ => "Checking for updates (emerge -upvND @world)..."

/-- The busy-rejection diagnostic `run_generic_task` routes to the step's
error callback (line 568). -/
def conflictMsg : String := "Internal Error: Task conflict during sequential load."

/-- The busy-rejection dialog shown by `run_emerge_command` (line 644). -/
def anotherOpMsg : String :=
  "Another operation is already in progress. Please wait or cancel."

/-- `_start_next_load_step(LOAD_STEP_COMPLETE)` (lines 548-553): final
status notice and teardown of the busy indicators. -/
def teardownComplete (s : EngState) : EngState :=
  { s with
    statusMessages := s.statusMessages ++ ["Initial loading complete."]
    progressVisible := false
    cancelEnabled := false
    slot := none
    phase := .complete }

/-- The updates-tab preparation done by `refresh_updates` before submitting
its task (lines 922-924). -/
def prepUpdates (s : EngState) : EngState :=
  { s with updatesListItems := ["Checking for updates (emerge pretend)..."] }

/-- `run_generic_task` for the updates step: rejected with the conflict
diagnostic routed to `on_updates_error` when busy (its continuation being
`_start_next_load_step(LOAD_STEP_COMPLETE)`), otherwise the worker is
spawned. -/
def submitStep2 (s : EngState) : EngState :=
  if isBusy s then onUpdatesError conflictMsg teardownComplete s
  else spawnGeneric (stepCommand 2) (stepStatusMsg 2) s

/-- `_start_next_load_step(LOAD_STEP_UPDATES)`: `refresh_updates`. -/
def startStep2 (s : EngState) : EngState := submitStep2 (prepUpdates s)

/-- `run_generic_task` for the available step: rejected through
`on_load_available_error` / `_generic_error` when busy (continuation
`_start_next_load_step(LOAD_STEP_UPDATES)`), otherwise spawned. -/
def submitStep1 (s : EngState) : EngState :=
  if isBusy s then genericError conflictMsg startStep2 s
  else spawnGeneric (stepCommand 1) (stepStatusMsg 1) s

/-- `_start_next_load_step(LOAD_STEP_AVAILABLE)`: `load_all_available_packages`. -/
def startStep1 (s : EngState) : EngState := submitStep1 s

/-- `run_generic_task` for the installed step: rejected through
`on_installed_error` / `_generic_error` when busy (continuation
`_start_next_load_step(LOAD_STEP_AVAILABLE)`), otherwise spawned. -/
def submitStep0 (s : EngState) : EngState :=
  if isBusy s then genericError conflictMsg startStep1 s
  else spawnGeneric (stepCommand 0) (stepStatusMsg 0) s

/-- `_start_next_load_step(LOAD_STEP_INSTALLED)`: `refresh_installed_packages`. -/
def startStep0 (s : EngState) : EngState := submitStep0 s

/-- The terminal signal a load step's worker delivered: `result`+`finished`
with its parsed payload, or `error` with a diagnostic (the payload is only
inspected by the updates step). -/
inductive StepOutcome where
  | ok (atoms display : List String)
  | err (msg : String)
deriving DecidableEq

/-- Delivery of the installed step's terminal signal to its handlers
(`_generic_finished` / `on_installed_error`). -/
def deliverStep0 (o : StepOutcome) (s : EngState) : EngState :=
  let s := threadDone s
  match o with
  | .ok _ _ => genericFinished startStep1 s
  | .err m => genericError m startStep1 s

/-- Delivery of the available step's terminal signal to its handlers
(`_generic_finished` / `on_load_available_error`). -/
def deliverStep1 (o : StepOutcome) (s : EngState) : EngState :=
  let s := threadDone s
  match o with
  | .ok _ _ => genericFinished startStep2 s
  | .err m => genericError m startStep2 s

/-- Delivery of the updates step's terminal signal to its handlers
(`on_updates_result` then `_generic_finished`, or `on_updates_error`). -/
def deliverStep2 (o : StepOutcome) (s : EngState) : EngState :=
  let s := threadDone s
  match o with
  | .ok atoms display => genericFinished teardownComplete (onUpdatesResult atoms display s)
  | .err m => onUpdatesError m teardownComplete s

/-- One full run of the sequential load pipeline started by
`_start_next_load_step(LOAD_STEP_INSTALLED)`: each spawned worker delivers
exactly one terminal signal; a delivery happens only while a worker occupies
the slot (the chain may stop early on cancellation or a fatal error). -/
def runLoadSequence (o0 o1 o2 : StepOutcome) (s0 : EngState) : EngState :=
  let s1 := startStep0 s0
  if s1.slot.isSome then
    let s2 := deliverStep0 o0 s1
    if s2.slot.isSome then
      let s3 := deliverStep1 o1 s2
      if s3.slot.isSome then deliverStep2 o2 s3 else s3
    else s2
  else s1

/-- `run_emerge_command` (lines 641-666): rejected with a busy dialog while
a worker is active; otherwise status message, busy indicators, a console
banner, and a new `CommandWorker` stored in the slot and started. -/
def runEmergeCommand (cmd : List String) (statusMsg : String)
    (usePkexec : Bool) (s : EngState) : EngState :=
  if isBusy s then showErrorDialog anotherOpMsg s
  else
    let w : Worker := ⟨s.nextId, cmd⟩
    { s with
      statusMessages := s.statusMessages ++ [statusMsg]
      progressVisible := true
      cancelEnabled := true
      console := s.console ++
        ["\n------------------------------\nExecuting: " ++
          (if usePkexec then "pkexec " else "") ++ pyJoin " " cmd ++
          "\n------------------------------\n"]
      slot := some w
      alive := w :: s.alive
      spawned := s.spawned ++ [cmd]
      nextId := s.nextId + 1 }


/-! ### Helper lemmas -/

theorem charListLe_refl : ∀ l, charListLe l l = true := by
  intro l
  induction l with
  | nil => rfl
  | cons x xs ih => simp [charListLe, ih]

theorem charListLe_total : ∀ a b, charListLe a b = true ∨ charListLe b a = true := by
  intro a
  induction a with
  | nil => intro b; left; rfl
  | cons x xs ih =>
    intro b
    cases b with
    | nil => right; rfl
    | cons y ys =>
      by_cases hxy : x = y
      · subst hxy
        rcases ih ys with h | h
        · left; simpa [charListLe] using h
        · right; simpa [charListLe] using h
      · rcases lt_or_gt_of_ne hxy with h | h
        · left; simp [charListLe, hxy, h]
        · right; simp [charListLe, Ne.symm hxy, h]

theorem charListLe_trans :
    ∀ a b c, charListLe a b = true → charListLe b c = true → charListLe a c = true := by
  intro a
  induction a with
  | nil => intro b c _ _; rfl
  | cons x xs ih =>
    intro b c hab hbc
    cases b with
    | nil => simp [charListLe] at hab
    | cons y ys =>
      cases c with
      | nil => simp [charListLe] at hbc
      | cons z zs =>
        by_cases hxy : x = y
        · subst hxy
          simp only [charListLe, if_pos rfl] at hab
          by_cases hxz : x = z
          · subst hxz
            simp only [charListLe, if_pos rfl] at hbc ⊢
            exact ih ys zs hab hbc
          · simp only [charListLe, if_neg hxz] at hbc ⊢
            exact hbc
        · simp only [charListLe, if_neg hxy, decide_eq_true_eq] at hab
          by_cases hyz : y = z
          · subst hyz
            simp [charListLe, hxy, hab]
          · simp only [charListLe, if_neg hyz, decide_eq_true_eq] at hbc
            have hxz : x < z := lt_trans hab hbc
            simp [charListLe, ne_of_lt hxz, hxz]

theorem charListLe_antisymm :
    ∀ a b, charListLe a b = true → charListLe b a = true → a = b := by
  intro a
  induction a with
  | nil =>
    intro b h1 h2
    cases b with
    | nil => rfl
    | cons y ys => simp [charListLe] at h2
  | cons x xs ih =>
    intro b h1 h2
    cases b with
    | nil => simp [charListLe] at h1
    | cons y ys =>
      by_cases hxy : x = y
      · subst hxy
        simp only [charListLe, if_pos rfl] at h1 h2
        rw [ih ys h1 h2]
      · simp only [charListLe, if_neg hxy, decide_eq_true_eq] at h1
        simp only [charListLe, if_neg (Ne.symm hxy), decide_eq_true_eq] at h2
        exact absurd h2 (not_lt_of_gt h1)

instance : IsTotal String PyLe := ⟨fun a b => charListLe_total a.data b.data⟩

instance : IsTrans String PyLe :=
  ⟨fun a b c hab hbc => charListLe_trans a.data b.data c.data hab hbc⟩

instance : IsAntisymm String PyLe := by
  refine ⟨fun a b h1 h2 => ?_⟩
  cases a with
  | mk da =>
    cases b with
    | mk db =>
      have : da = db := charListLe_antisymm da db h1 h2
      rw [this]

theorem onUpdatesError_benign (m : String) (next : EngState → EngState)
    (s : EngState) (h : is_no_updates m = true) :
    classifyUpdatesError m = .successEmpty ∧
    onUpdatesError m next s = genericFinished next (onUpdatesResult [] [] s) := by
  constructor
  · simp [classifyUpdatesError, h]
  · simp [onUpdatesError, h]

theorem genericError_continue (m : String) (next : EngState → EngState)
    (s : EngState) (h1 : pyIn "Operation Cancelled" m = false)
    (h2 : pyIn "Command not found" m = false) :
    genericError m next s =
      next (clearSlot (showStatus ("Load failed: " ++ headLine m ++ "...")
        (logConsole ("\n--------------------\nERROR during data load:\n" ++ m) s))) := by
  simp [genericError, h1, h2]

/-! ### Claims about the updates-step failure classifier -/

/-- C2: every failure diagnostic of the updates step matching a configured
benign "no updates" phrase is classified as Success with an empty payload
(empty atoms and display lists), never as a Failure, and the sequence then
advances via the success path (`on_updates_result` with the empty payload
followed by `_generic_finished`). -/
theorem C2_benign_rewritten_to_success (m : String) (next : EngState → EngState)
    (s : EngState) (h : is_no_updates m = true) :
    classifyUpdatesError m = .successEmpty ∧
    classifyUpdatesError m ≠ .failurePerm ∧
    classifyUpdatesError m ≠ .failureOther ∧
    onUpdatesError m next s = genericFinished next (onUpdatesResult [] [] s) ∧
    (onUpdatesResult [] [] s).updateListAtoms = [] ∧
    (onUpdatesResult [] [] s).updateListDisplay = [] := by
  obtain ⟨hc, he⟩ := onUpdatesError_benign m next s h
  refine ⟨hc, ?_, ?_, he, rfl, rfl⟩ <;> simp [hc]

/-- C2 witness: the classifier on the concrete diagnostic
`"Nothing to merge. Exiting."` takes the success rewrite. -/
theorem C2_benign_rewritten_to_success_witness :
    is_no_updates "Nothing to merge. Exiting." = true ∧
    (classifyUpdatesError "Nothing to merge. Exiting." = .successEmpty ∧
     classifyUpdatesError "Nothing to merge. Exiting." ≠ .failurePerm ∧
     classifyUpdatesError "Nothing to merge. Exiting." ≠ .failureOther ∧
     onUpdatesError "Nothing to merge. Exiting." id initState =
       genericFinished id (onUpdatesResult [] [] initState) ∧
     (onUpdatesResult [] [] initState).updateListAtoms = [] ∧
     (onUpdatesResult [] [] initState).updateListDisplay = []) :=
  ⟨by decide, C2_benign_rewritten_to_success "Nothing to merge. Exiting." id initState (by decide)⟩

/-- C3 counterexample: the diagnostic `"Permission denied. Exiting."`
matches the permission-denied pattern, yet the classifier returns the
silent success rewrite, because the benign phrase `"Exiting."` is checked
first — refuting the claim as stated. -/
theorem C3_counterexample_benign_wins :
    pyIn "Permission denied" "Permission denied. Exiting." = true ∧
    classifyUpdatesError "Permission denied. Exiting." = .successEmpty ∧
    onUpdatesError "Permission denied. Exiting." id initState =
      genericFinished id (onUpdatesResult [] [] initState) := by
  refine ⟨by decide, by decide, ?_⟩
  have h : is_no_updates "Permission denied. Exiting." = true := by decide
  simp [onUpdatesError, h]

/-- C3 (amended): every failure diagnostic matching a permission-denied
pattern (contains "Permission denied" or "are you root?") that does not
also contain a benign "no updates" phrase is classified as a terminal
Failure (routed to `_generic_error`), never as a silent Success; the
predicate list is ordered and the first match wins, with the benign
phrases checked first. -/
theorem C3_perm_denied_amended (m : String) (next : EngState → EngState)
    (s : EngState)
    (hp : (pyIn "Permission denied" m || pyIn "are you root?" m) = true)
    (hb : is_no_updates m = false) :
    classifyUpdatesError m = .failurePerm ∧
    classifyUpdatesError m ≠ .successEmpty ∧
    onUpdatesError m next s = genericError m next
      { s with updatesListItems := ["Permission error checking updates."] } := by
  refine ⟨?_, ?_, ?_⟩
  · simp [classifyUpdatesError, hb, hp]
  · simp [classifyUpdatesError, hb, hp]
  · simp [onUpdatesError, hb, hp]

/-- C3 witness: the concrete diagnostic `"emerge: Permission denied"`
(no benign phrase) is kept as a terminal failure. -/
theorem C3_perm_denied_amended_witness :
    (pyIn "Permission denied" "emerge: Permission denied" ||
      pyIn "are you root?" "emerge: Permission denied") = true ∧
    is_no_updates "emerge: Permission denied" = false ∧
    (classifyUpdatesError "emerge: Permission denied" = .failurePerm ∧
     classifyUpdatesError "emerge: Permission denied" ≠ .successEmpty ∧
     onUpdatesError "emerge: Permission denied" id initState = genericError
       "emerge: Permission denied" id
       { initState with
         updatesListItems := ["Permission error checking updates."] }) :=
  ⟨by decide, by decide,
    C3_perm_denied_amended "emerge: Permission denied" id initState (by decide) (by decide)⟩

/-- C10: every failure diagnostic of the updates step containing the bare
benign substring "Exiting." is rewritten into success-with-empty-result and
the sequence continues via the success path, even when the same diagnostic
also contains a permission-denied pattern, because the benign-phrase check
is evaluated before the permission-denied check. -/
theorem C10_benign_checked_first (m : String) (next : EngState → EngState)
    (s : EngState) (hb : pyIn "Exiting." m = true)
    (_hp : pyIn "Permission denied" m = true) :
    classifyUpdatesError m = .successEmpty ∧
    onUpdatesError m next s = genericFinished next (onUpdatesResult [] [] s) ∧
    (onUpdatesResult [] [] s).updateListAtoms = [] ∧
    (onUpdatesResult [] [] s).updateListDisplay = [] := by
  have h : is_no_updates m = true := by
    simp [is_no_updates, no_updates_phrases, hb]
  obtain ⟨hc, he⟩ := onUpdatesError_benign m next s h
  exact ⟨hc, he, rfl, rfl⟩

/-- C10 witness: a concrete diagnostic containing both "Permission denied"
and "Exiting." is rewritten to success. -/
theorem C10_benign_checked_first_witness :
    pyIn "Exiting." "Permission denied (are you root?)\nExiting." = true ∧
    pyIn "Permission denied" "Permission denied (are you root?)\nExiting." = true ∧
    (classifyUpdatesError "Permission denied (are you root?)\nExiting." = .successEmpty ∧
     onUpdatesError "Permission denied (are you root?)\nExiting." id initState =
       genericFinished id (onUpdatesResult [] [] initState) ∧
     (onUpdatesResult [] [] initState).updateListAtoms = [] ∧
     (onUpdatesResult [] [] initState).updateListDisplay = []) :=
  ⟨by decide, by decide,
    C10_benign_checked_first "Permission denied (are you root?)\nExiting." id initState
      (by decide) (by decide)⟩

/-- C9: `parse_eix_output` returns the sorted, duplicate-free list of the
stripped nonempty lines containing a slash; the result is identical for
every permutation of the input, and the example input
`["app-misc/foo-1.0", "app-misc/bar-2.1"]` yields
`["app-misc/bar-2.1", "app-misc/foo-1.0"]`. -/
theorem C9_parse_dedup_sort (l1 l2 : List String) (h : l1.Perm l2) :
    parse_eix_output l1 = parse_eix_output l2 ∧
    List.Sorted PyLe (parse_eix_output l1) ∧
    (parse_eix_output l1).Nodup ∧
    (∀ x, x ∈ parse_eix_output l1 ↔
      ∃ l, l ∈ l1 ∧ ((l != "") && pyIn "/" l) = true ∧ x = pyStrip l) ∧
    parse_eix_output ["app-misc/foo-1.0", "app-misc/bar-2.1"] =
      ["app-misc/bar-2.1", "app-misc/foo-1.0"] := by
  have hperm : ((l1.filter (fun l => (l != "") && pyIn "/" l)).map pyStrip).dedup.Perm
      ((l2.filter (fun l => (l != "") && pyIn "/" l)).map pyStrip).dedup :=
    ((h.filter _).map pyStrip).dedup
  refine ⟨?_, List.sorted_insertionSort PyLe _, ?_, ?_, by decide⟩
  · exact List.eq_of_perm_of_sorted
      (((List.perm_insertionSort PyLe _).trans hperm).trans
        (List.perm_insertionSort PyLe _).symm)
      (List.sorted_insertionSort PyLe _) (List.sorted_insertionSort PyLe _)
  · exact ((List.perm_insertionSort PyLe _).nodup_iff).mpr (List.nodup_dedup _)
  · intro x
    simp only [parse_eix_output, List.mem_insertionSort, List.mem_dedup,
      List.mem_map, List.mem_filter]
    constructor
    · rintro ⟨a, ⟨ha, hp⟩, rfl⟩
      exact ⟨a, ha, hp, rfl⟩
    · rintro ⟨a, ha, hp, rfl⟩
      exact ⟨a, ⟨ha, hp⟩, rfl⟩

/-- C9 witness: the permutation-invariance and membership description at
the example input and its reversal. -/
theorem C9_parse_dedup_sort_witness :
    (["app-misc/foo-1.0", "app-misc/bar-2.1"].Perm
      ["app-misc/bar-2.1", "app-misc/foo-1.0"]) ∧
    (parse_eix_output ["app-misc/foo-1.0", "app-misc/bar-2.1"] =
      parse_eix_output ["app-misc/bar-2.1", "app-misc/foo-1.0"] ∧
     List.Sorted PyLe (parse_eix_output ["app-misc/foo-1.0", "app-misc/bar-2.1"]) ∧
     (parse_eix_output ["app-misc/foo-1.0", "app-misc/bar-2.1"]).Nodup ∧
     (∀ x, x ∈ parse_eix_output ["app-misc/foo-1.0", "app-misc/bar-2.1"] ↔
       ∃ l, l ∈ ["app-misc/foo-1.0", "app-misc/bar-2.1"] ∧
         ((l != "") && pyIn "/" l) = true ∧ x = pyStrip l) ∧
     parse_eix_output ["app-misc/foo-1.0", "app-misc/bar-2.1"] =
       ["app-misc/bar-2.1", "app-misc/foo-1.0"]) :=
  ⟨List.Perm.swap "app-misc/bar-2.1" "app-misc/foo-1.0" [],
   C9_parse_dedup_sort ["app-misc/foo-1.0", "app-misc/bar-2.1"]
     ["app-misc/bar-2.1", "app-misc/foo-1.0"]
     (List.Perm.swap "app-misc/bar-2.1" "app-misc/foo-1.0" [])⟩


theorem filter_isTerminal_progressMap (lines : List String) :
    List.filter isTerminal (lines.map (fun l => Emission.progressSig (pyStrip l))) = [] := by
  induction lines with
  | nil => rfl
  | cons a as ih =>
    simp [List.filter_cons, isTerminal, ih]

theorem terminalEmissions_progressMap (lines : List String) :
    terminalEmissions (lines.map (fun l => Emission.progressSig (pyStrip l))) = [] :=
  filter_isTerminal_progressMap lines

theorem terminalEmissions_append (xs ys : List Emission) :
    terminalEmissions (xs ++ ys) = terminalEmissions xs ++ terminalEmissions ys := by
  simp [terminalEmissions]

/-- C7: the fixed 300-second timeout is enforced on every process
invocation by both worker classes: when the bounded wait expires, the
process is force-killed and the single terminal signal is the Timeout
failure whose diagnostic identifies the elapsed time; the worker's run
always resolves to a terminal signal. -/
theorem C7_timeout_enforced (cmd : List String) (usePkexec pkexecPresent : Bool)
    {α : Type} (parser : List String → Except String α) (t : RunTrace)
    (hpk : usePkexec = false ∨ pkexecPresent = true)
    (hl : t.launch = .ok) (hc : t.cancelObserved = false) (hw : t.wait = .timeout) :
    (commandWorkerRun cmd usePkexec pkexecPresent t).killed = true ∧
    terminalEmissions (commandWorkerRun cmd usePkexec pkexecPresent t).emissions =
      [.errorSig timeoutMsg] ∧
    (genericWorkerRun cmd parser t).2 = true ∧
    (genericWorkerRun cmd parser t).1 = [.errorSig timeoutMsg] ∧
    COMMAND_TIMEOUT = 300 ∧
    timeoutMsg = "Command timed out after 300 seconds." ∧
    pyIn "300" timeoutMsg = true := by
  obtain ⟨lres, lines, cancel, wres⟩ := t
  simp only at hl hc hw
  subst hl; subst hc; subst hw
  have hu : (usePkexec && !pkexecPresent) = false := by
    rcases hpk with h | h <;> simp [h]
  refine ⟨?_, ?_, ?_, ?_, rfl, by decide, by decide⟩
  · simp [commandWorkerRun, hu]
  · simp [commandWorkerRun, hu, terminalEmissions, filter_isTerminal_progressMap, isTerminal]
  · simp [genericWorkerRun]
  · simp [genericWorkerRun]

/-- C7 witness: a concrete elevated invocation whose wait times out. -/
theorem C7_timeout_enforced_witness :
    (RunTrace.mk .ok ["calculating dependencies"] false .timeout).launch = .ok ∧
    (RunTrace.mk .ok ["calculating dependencies"] false .timeout).cancelObserved = false ∧
    (RunTrace.mk .ok ["calculating dependencies"] false .timeout).wait = .timeout ∧
    ((commandWorkerRun ["emerge", "--sync"] true true
        ⟨.ok, ["calculating dependencies"], false, .timeout⟩).killed = true ∧
     terminalEmissions (commandWorkerRun ["emerge", "--sync"] true true
        ⟨.ok, ["calculating dependencies"], false, .timeout⟩).emissions =
        [.errorSig timeoutMsg] ∧
     (genericWorkerRun ["emerge", "--sync"] (fun ls => Except.ok ls)
        ⟨.ok, ["calculating dependencies"], false, .timeout⟩).2 = true ∧
     (genericWorkerRun ["emerge", "--sync"] (fun ls => Except.ok ls)
        ⟨.ok, ["calculating dependencies"], false, .timeout⟩).1 =
        [.errorSig timeoutMsg] ∧
     COMMAND_TIMEOUT = 300 ∧
     timeoutMsg = "Command timed out after 300 seconds." ∧
     pyIn "300" timeoutMsg = true) :=
  ⟨rfl, rfl, rfl,
    C7_timeout_enforced ["emerge", "--sync"] true true (fun ls => Except.ok ls)
      ⟨.ok, ["calculating dependencies"], false, .timeout⟩ (Or.inr rfl) rfl rfl rfl⟩

/-- C8: every `CommandWorker.run` emits exactly one terminal signal;
`stop` emits only progress notices (so a second terminal emission is never
produced); and whenever the cancellation is observed by the running worker
(the stop flag cleared before the post-read check), the single terminal
signal is the `Cancelled` error — never a success (`finished`/`result`)
and never any other failure. -/
theorem C8_single_terminal_emission (cmd : List String) (u p : Bool) (t : RunTrace) :
    (terminalEmissions (commandWorkerRun cmd u p t).emissions).length = 1 ∧
    (∀ a b : Bool, terminalEmissions (commandWorkerStop a b) = []) ∧
    (t.launch = .ok → t.cancelObserved = true → (u = false ∨ p = true) →
      (commandWorkerRun cmd u p t).emissions =
        (t.stdoutLines.map fun l => Emission.progressSig (pyStrip l)) ++
          [.errorSig cancelledMsg] ∧
      terminalEmissions (commandWorkerRun cmd u p t).emissions =
        [.errorSig cancelledMsg] ∧
      Emission.finishedSig ∉ (commandWorkerRun cmd u p t).emissions ∧
      (∀ pay, Emission.resultSig pay ∉ (commandWorkerRun cmd u p t).emissions)) := by
  obtain ⟨lres, lines, cancel, wres⟩ := t
  refine ⟨?_, ?_, ?_⟩
  · by_cases hu : (u && !p) = true
    · simp [commandWorkerRun, hu, terminalEmissions, isTerminal]
    · rw [Bool.not_eq_true] at hu
      cases lres with
      | notFound => simp [commandWorkerRun, hu, terminalEmissions, isTerminal]
      | ok =>
        cases cancel with
        | true =>
          simp [commandWorkerRun, hu, terminalEmissions,
            filter_isTerminal_progressMap, isTerminal]
        | false =>
          cases wres with
          | timeout =>
            simp [commandWorkerRun, hu, terminalEmissions,
              filter_isTerminal_progressMap, isTerminal]
          | exited code stderr =>
            by_cases hcode : (code != 0) = true
            · simp [commandWorkerRun, hu, hcode, terminalEmissions,
                filter_isTerminal_progressMap, isTerminal]
            · simp [commandWorkerRun, hu, hcode, terminalEmissions,
                filter_isTerminal_progressMap, isTerminal]
  · intro a b
    cases a <;> cases b <;> rfl
  · intro hl hc hpk
    simp only at hl hc
    subst hl; subst hc
    have hu : (u && !p) = false := by
      rcases hpk with h | h <;> simp [h]
    refine ⟨by simp [commandWorkerRun, hu], ?_, ?_, ?_⟩
    · simp [commandWorkerRun, hu, terminalEmissions,
        filter_isTerminal_progressMap, isTerminal]
    · simp [commandWorkerRun, hu]
    · intro pay
      simp [commandWorkerRun, hu]

/-- C8 witness: a run whose read loop observed the stop flag emits
exactly the streamed lines followed by the single Cancelled signal. -/
theorem C8_single_terminal_emission_witness :
    (RunTrace.mk .ok ["pulling in dependencies"] true (.exited 0 "")).launch = .ok ∧
    (RunTrace.mk .ok ["pulling in dependencies"] true (.exited 0 "")).cancelObserved = true ∧
    ((terminalEmissions (commandWorkerRun ["emerge", "--sync"] false true
        ⟨.ok, ["pulling in dependencies"], true, .exited 0 ""⟩).emissions).length = 1 ∧
     (commandWorkerRun ["emerge", "--sync"] false true
        ⟨.ok, ["pulling in dependencies"], true, .exited 0 ""⟩).emissions =
       (["pulling in dependencies"].map fun l => Emission.progressSig (pyStrip l)) ++
         [.errorSig cancelledMsg] ∧
     terminalEmissions (commandWorkerRun ["emerge", "--sync"] false true
        ⟨.ok, ["pulling in dependencies"], true, .exited 0 ""⟩).emissions =
       [.errorSig cancelledMsg] ∧
     Emission.finishedSig ∉ (commandWorkerRun ["emerge", "--sync"] false true
        ⟨.ok, ["pulling in dependencies"], true, .exited 0 ""⟩).emissions) :=
  ⟨rfl, rfl,
    (C8_single_terminal_emission ["emerge", "--sync"] false true
      ⟨.ok, ["pulling in dependencies"], true, .exited 0 ""⟩).1,
    ((C8_single_terminal_emission ["emerge", "--sync"] false true
      ⟨.ok, ["pulling in dependencies"], true, .exited 0 ""⟩).2.2 rfl rfl (Or.inl rfl)).1,
    ((C8_single_terminal_emission ["emerge", "--sync"] false true
      ⟨.ok, ["pulling in dependencies"], true, .exited 0 ""⟩).2.2 rfl rfl (Or.inl rfl)).2.1,
    ((C8_single_terminal_emission ["emerge", "--sync"] false true
      ⟨.ok, ["pulling in dependencies"], true, .exited 0 ""⟩).2.2 rfl rfl (Or.inl rfl)).2.2.1⟩


theorem isBusy_clearSlot (s : EngState) : isBusy (clearSlot s) = false := rfl

theorem isBusy_prepUpdates (s : EngState) : isBusy (prepUpdates s) = isBusy s := rfl

/-- C1 counterexample: with the installed-step worker alive, submitting the
available step is rejected with the Busy-style conflict diagnostic — but the
rejection is routed through the step's error callback, which clears the slot
and immediately starts the next step's worker, so two worker threads are
alive at once and the single-process invariant is violated. -/
theorem C1_counterexample_two_workers :
    isBusy (startStep0 initState) = true ∧
    ((startStep1 (startStep0 initState)).console.any
      (fun e => pyIn conflictMsg e)) = true ∧
    (startStep1 (startStep0 initState)).alive.length = 2 ∧
    (startStep1 (startStep0 initState)).spawned = [stepCommand 0, stepCommand 2] := by
  decide

/-- C1 (amended): while a worker is active, a submission via
`run_emerge_command` is rejected with the busy dialog and starts no worker
(alive set, slot and spawned commands unchanged); a submission via
`run_generic_task` is rejected (never queued) and never starts a worker for
the submitted command — but its rejection is routed through the step's error
callback, which advances the sequence and can immediately start the
following step's worker while the original worker is still alive, so two
external processes can be alive simultaneously. -/
theorem C1_amended_submission_while_busy (s : EngState) (cmd : List String)
    (statusMsg : String) (usePkexec : Bool) (h : isBusy s = true) :
    ((runEmergeCommand cmd statusMsg usePkexec s).alive = s.alive ∧
     (runEmergeCommand cmd statusMsg usePkexec s).slot = s.slot ∧
     (runEmergeCommand cmd statusMsg usePkexec s).spawned = s.spawned ∧
     (runEmergeCommand cmd statusMsg usePkexec s).dialogs = s.dialogs ++ [anotherOpMsg]) ∧
    (∀ w ∈ (submitStep0 s).alive, w ∈ s.alive ∨ w.command = stepCommand 1) ∧
    (∀ w ∈ (submitStep1 s).alive, w ∈ s.alive ∨ w.command = stepCommand 2) ∧
    (submitStep2 s).alive = s.alive ∧
    (submitStep0 s).spawned = s.spawned ++ [stepCommand 1] ∧
    (submitStep1 s).spawned = s.spawned ++ [stepCommand 2] ∧
    (submitStep2 s).spawned = s.spawned := by
  have hc1 : pyIn "Operation Cancelled" conflictMsg = false := by decide
  have hc2 : pyIn "Command not found" conflictMsg = false := by decide
  have hno : is_no_updates conflictMsg = false := by decide
  have hpm : (pyIn "Permission denied" conflictMsg ||
      pyIn "are you root?" conflictMsg) = false := by decide
  have e0 : submitStep0 s = spawnGeneric (stepCommand 1) (stepStatusMsg 1)
      (clearSlot (showStatus ("Load failed: " ++ headLine conflictMsg ++ "...")
        (logConsole ("\n--------------------\nERROR during data load:\n" ++ conflictMsg) s))) := by
    rw [submitStep0, if_pos h, genericError_continue _ _ _ hc1 hc2, startStep1,
      submitStep1, if_neg]
    rw [isBusy_clearSlot]
    simp
  have e1 : submitStep1 s = spawnGeneric (stepCommand 2) (stepStatusMsg 2)
      (prepUpdates (clearSlot (showStatus ("Load failed: " ++ headLine conflictMsg ++ "...")
        (logConsole ("\n--------------------\nERROR during data load:\n" ++ conflictMsg) s)))) := by
    rw [submitStep1, if_pos h, genericError_continue _ _ _ hc1 hc2, startStep2,
      submitStep2, if_neg]
    rw [isBusy_prepUpdates, isBusy_clearSlot]
    simp
  have e2 : submitStep2 s = teardownComplete
      (clearSlot (showStatus ("Load failed: " ++ headLine conflictMsg ++ "...")
        (logConsole ("\n--------------------\nERROR during data load:\n" ++ conflictMsg)
          { s with updatesListItems := ["Error checking for updates."] }))) := by
    rw [submitStep2, if_pos h, onUpdatesError]
    rw [if_neg (by simp [hno]), if_neg (by simp [hpm])]
    rw [genericError_continue _ _ _ hc1 hc2]
  refine ⟨?_, ?_, ?_, ?_, ?_, ?_, ?_⟩
  · rw [runEmergeCommand, if_pos h]
    exact ⟨rfl, rfl, rfl, rfl⟩
  · intro w hw
    rw [e0] at hw
    simp only [spawnGeneric, clearSlot, showStatus, logConsole,
      List.mem_cons] at hw
    rcases hw with rfl | hmem
    · right; rfl
    · left; exact hmem
  · intro w hw
    rw [e1] at hw
    simp only [spawnGeneric, prepUpdates, clearSlot, showStatus, logConsole,
      List.mem_cons] at hw
    rcases hw with rfl | hmem
    · right; rfl
    · left; exact hmem
  · rw [e2]; rfl
  · rw [e0]; rfl
  · rw [e1]; rfl
  · rw [e2]; rfl

/-- C1 witness: the amended statement at the concrete busy state reached
right after the installed step's worker was started. -/
theorem C1_amended_submission_while_busy_witness :
    isBusy (startStep0 initState) = true ∧
    (((runEmergeCommand ["emerge", "--sync"] "Running emerge --sync..." true
        (startStep0 initState)).alive = (startStep0 initState).alive ∧
      (runEmergeCommand ["emerge", "--sync"] "Running emerge --sync..." true
        (startStep0 initState)).slot = (startStep0 initState).slot ∧
      (runEmergeCommand ["emerge", "--sync"] "Running emerge --sync..." true
        (startStep0 initState)).spawned = (startStep0 initState).spawned ∧
      (runEmergeCommand ["emerge", "--sync"] "Running emerge --sync..." true
        (startStep0 initState)).dialogs = (startStep0 initState).dialogs ++ [anotherOpMsg]) ∧
     (∀ w ∈ (submitStep0 (startStep0 initState)).alive,
        w ∈ (startStep0 initState).alive ∨ w.command = stepCommand 1) ∧
     (∀ w ∈ (submitStep1 (startStep0 initState)).alive,
        w ∈ (startStep0 initState).alive ∨ w.command = stepCommand 2) ∧
     (submitStep2 (startStep0 initState)).alive = (startStep0 initState).alive ∧
     (submitStep0 (startStep0 initState)).spawned =
       (startStep0 initState).spawned ++ [stepCommand 1] ∧
     (submitStep1 (startStep0 initState)).spawned =
       (startStep0 initState).spawned ++ [stepCommand 2] ∧
     (submitStep2 (startStep0 initState)).spawned = (startStep0 initState).spawned) :=
  ⟨by decide,
    C1_amended_submission_while_busy (startStep0 initState) ["emerge", "--sync"]
      "Running emerge --sync..." true (by decide)⟩

/-- C4: when the intermediate (available) step fails with an ordinary
failure — neither a cancellation nor a diagnostic matching the fatal
missing-tool check — the failure is logged to the console and the sequence
still executes all three steps and reaches Complete, which tears down the
busy indicators; no error dialog is shown. -/
theorem C4_intermediate_failure_continues (m : String) (atoms display : List String)
    (h1 : pyIn "Operation Cancelled" m = false)
    (h2 : pyIn "Command not found" m = false) :
    (runLoadSequence (.ok [] []) (.err m) (.ok atoms display) initState).phase = .complete ∧
    (runLoadSequence (.ok [] []) (.err m) (.ok atoms display) initState).spawned =
      [stepCommand 0, stepCommand 1, stepCommand 2] ∧
    (runLoadSequence (.ok [] []) (.err m) (.ok atoms display) initState).progressVisible = false ∧
    (runLoadSequence (.ok [] []) (.err m) (.ok atoms display) initState).cancelEnabled = false ∧
    (runLoadSequence (.ok [] []) (.err m) (.ok atoms display) initState).dialogs = [] ∧
    ("\n--------------------\nERROR during data load:\n" ++ m) ∈
      (runLoadSequence (.ok [] []) (.err m) (.ok atoms display) initState).console := by
  have egen : deliverStep1 (.err m) (deliverStep0 (.ok [] []) (startStep0 initState)) =
      startStep2 (clearSlot (showStatus ("Load failed: " ++ headLine m ++ "...")
        (logConsole ("\n--------------------\nERROR during data load:\n" ++ m)
          (threadDone (deliverStep0 (.ok [] []) (startStep0 initState)))))) :=
    genericError_continue m startStep2 _ h1 h2
  have e : runLoadSequence (.ok [] []) (.err m) (.ok atoms display) initState =
      deliverStep2 (.ok atoms display)
        (startStep2 (clearSlot (showStatus ("Load failed: " ++ headLine m ++ "...")
          (logConsole ("\n--------------------\nERROR during data load:\n" ++ m)
            (threadDone (deliverStep0 (.ok [] []) (startStep0 initState))))))) := by
    have base : runLoadSequence (.ok [] []) (.err m) (.ok atoms display) initState =
        if (deliverStep1 (.err m) (deliverStep0 (.ok [] []) (startStep0 initState))).slot.isSome then
          deliverStep2 (.ok atoms display)
            (deliverStep1 (.err m) (deliverStep0 (.ok [] []) (startStep0 initState)))
        else deliverStep1 (.err m) (deliverStep0 (.ok [] []) (startStep0 initState)) := rfl
    rw [base, egen]
    exact if_pos rfl
  rw [e]
  exact ⟨rfl, rfl, rfl, rfl, rfl, List.mem_singleton_self _⟩

/-- C4 witness: a concrete ordinary failure of the eix step. -/
theorem C4_intermediate_failure_continues_witness :
    pyIn "Operation Cancelled"
      "Command failed with exit code 1.\nCommand: eix -c --only-names */*\nNo stderr output captured." = false ∧
    pyIn "Command not found"
      "Command failed with exit code 1.\nCommand: eix -c --only-names */*\nNo stderr output captured." = false ∧
    ((runLoadSequence (.ok [] [])
        (.err "Command failed with exit code 1.\nCommand: eix -c --only-names */*\nNo stderr output captured.")
        (.ok ["app-misc/foo"] ["app-misc/foo (1.0 -> 1.1) [Update]"]) initState).phase = .complete ∧
     (runLoadSequence (.ok [] [])
        (.err "Command failed with exit code 1.\nCommand: eix -c --only-names */*\nNo stderr output captured.")
        (.ok ["app-misc/foo"] ["app-misc/foo (1.0 -> 1.1) [Update]"]) initState).spawned =
       [stepCommand 0, stepCommand 1, stepCommand 2] ∧
     (runLoadSequence (.ok [] [])
        (.err "Command failed with exit code 1.\nCommand: eix -c --only-names */*\nNo stderr output captured.")
        (.ok ["app-misc/foo"] ["app-misc/foo (1.0 -> 1.1) [Update]"]) initState).progressVisible = false ∧
     (runLoadSequence (.ok [] [])
        (.err "Command failed with exit code 1.\nCommand: eix -c --only-names */*\nNo stderr output captured.")
        (.ok ["app-misc/foo"] ["app-misc/foo (1.0 -> 1.1) [Update]"]) initState).cancelEnabled = false ∧
     (runLoadSequence (.ok [] [])
        (.err "Command failed with exit code 1.\nCommand: eix -c --only-names */*\nNo stderr output captured.")
        (.ok ["app-misc/foo"] ["app-misc/foo (1.0 -> 1.1) [Update]"]) initState).dialogs = [] ∧
     ("\n--------------------\nERROR during data load:\n" ++
        "Command failed with exit code 1.\nCommand: eix -c --only-names */*\nNo stderr output captured.") ∈
       (runLoadSequence (.ok [] [])
          (.err "Command failed with exit code 1.\nCommand: eix -c --only-names */*\nNo stderr output captured.")
          (.ok ["app-misc/foo"] ["app-misc/foo (1.0 -> 1.1) [Update]"]) initState).console) :=
  ⟨by decide, by decide,
    C4_intermediate_failure_continues
      "Command failed with exit code 1.\nCommand: eix -c --only-names */*\nNo stderr output captured."
      ["app-misc/foo"] ["app-misc/foo (1.0 -> 1.1) [Update]"] (by decide) (by decide)⟩

/-- C5: evaluation at the failing input.  The diagnostic actually emitted by
`GenericWorker` when the eix executable is missing does not contain the
guard substring `"Command not found"` checked by `_generic_error`, so the
sequence is not aborted: the remaining steps still run, no blocking dialog
is shown, and the run ends in Complete rather than Aborted — contradicting
both the claim and the code's own intent (its comment says "Stop sequence
if essential command missing"). -/
theorem C5_launch_error_not_aborted :
    pyIn "Command not found" (notFoundMsgGeneric (stepCommand 1)) = false ∧
    (genericWorkerRun (stepCommand 1) (fun ls => Except.ok (parse_eix_output ls))
        ⟨.notFound, [], false, .exited 0 ""⟩).1 =
      [.errorSig (notFoundMsgGeneric (stepCommand 1))] ∧
    (runLoadSequence (.ok [] []) (.err (notFoundMsgGeneric (stepCommand 1)))
        (.ok [] []) initState).phase = .complete ∧
    (runLoadSequence (.ok [] []) (.err (notFoundMsgGeneric (stepCommand 1)))
        (.ok [] []) initState).phase ≠ .abortedFatal ∧
    (runLoadSequence (.ok [] []) (.err (notFoundMsgGeneric (stepCommand 1)))
        (.ok [] []) initState).spawned = [stepCommand 0, stepCommand 1, stepCommand 2] ∧
    (runLoadSequence (.ok [] []) (.err (notFoundMsgGeneric (stepCommand 1)))
        (.ok [] []) initState).dialogs = [] := by
  decide

/-- C6: a task ending with the Cancelled result stops the sequence at that
step (no later step's worker is spawned), reaches the aborted-by-user
state with only a status notice, and never shows an error dialog — at
whichever of the three steps the cancellation lands; for user actions,
`_command_action_error` likewise adds only a status notice and no dialog. -/
theorem C6_cancellation_stops_sequence :
    (∀ o1 o2 : StepOutcome,
      (runLoadSequence (.err cancelledMsg) o1 o2 initState).phase = .abortedCancel ∧
      (runLoadSequence (.err cancelledMsg) o1 o2 initState).spawned = [stepCommand 0] ∧
      (runLoadSequence (.err cancelledMsg) o1 o2 initState).dialogs = [] ∧
      "Load operation Cancelled." ∈
        (runLoadSequence (.err cancelledMsg) o1 o2 initState).statusMessages) ∧
    (∀ o2 : StepOutcome,
      (runLoadSequence (.ok [] []) (.err cancelledMsg) o2 initState).phase = .abortedCancel ∧
      (runLoadSequence (.ok [] []) (.err cancelledMsg) o2 initState).spawned =
        [stepCommand 0, stepCommand 1] ∧
      (runLoadSequence (.ok [] []) (.err cancelledMsg) o2 initState).dialogs = [] ∧
      "Load operation Cancelled." ∈
        (runLoadSequence (.ok [] []) (.err cancelledMsg) o2 initState).statusMessages) ∧
    ((runLoadSequence (.ok [] []) (.ok [] []) (.err cancelledMsg) initState).phase = .abortedCancel ∧
     (runLoadSequence (.ok [] []) (.ok [] []) (.err cancelledMsg) initState).spawned =
       [stepCommand 0, stepCommand 1, stepCommand 2] ∧
     (runLoadSequence (.ok [] []) (.ok [] []) (.err cancelledMsg) initState).dialogs = [] ∧
     "Load operation Cancelled." ∈
       (runLoadSequence (.ok [] []) (.ok [] []) (.err cancelledMsg) initState).statusMessages) ∧
    (∀ s : EngState,
      (commandActionError cancelledMsg s).dialogs = s.dialogs ∧
      (commandActionError cancelledMsg s).statusMessages =
        s.statusMessages ++ ["Operation Cancelled."]) := by
  refine ⟨?_, ?_, ?_, ?_⟩
  · intro o1 o2
    exact ⟨rfl, rfl, rfl,
      List.mem_cons_of_mem _ (List.mem_singleton_self _)⟩
  · intro o2
    exact ⟨rfl, rfl, rfl,
      List.mem_cons_of_mem _ (List.mem_cons_of_mem _ (List.mem_singleton_self _))⟩
  · exact ⟨rfl, rfl, rfl,
      List.mem_cons_of_mem _ (List.mem_cons_of_mem _
        (List.mem_cons_of_mem _ (List.mem_singleton_self _)))⟩
  · intro s
    have hp : pyIn "Operation Cancelled" cancelledMsg = true := rfl
    constructor
    · simp [commandActionError, hp, clearSlot, logConsole, showStatus]
    · simp [commandActionError, hp, clearSlot, logConsole, showStatus]

end PortageGUI
